import Mathlib

/-!
Verification of the variant/subvariant expansion and step-assembly logic of
`generate-workflow.py`.

Python strings are modelled as `List Char` (`Str`).  The relevant Python
string primitives (`textwrap.indent`, `str.lstrip`, `str.rstrip`,
`str.replace`, `os.path.join`, ...) are modelled explicitly below, and the
data classes (`Variant`, `BenchmarkComponent`, `BenchmarkInfo`,
`WorkflowConfig`) and the step construction of `generate_benchmark_job`
(lines 547-751 of the source) are translated definition by definition.
Braces that occur literally in the generated text are written with the
`\x7b` / `\x7d` escapes.
-/

/-- Python `str` is modelled as a list of characters. -/
abbrev Str := List Char

/-- Embed a Lean string literal as a `Str`. -/
def lit (s : String) : Str := s.data

/-- Python whitespace characters, as used by `str.strip()` on the ASCII text
occurring in this generator. -/
def isPySpace (c : Char) : Bool :=
  c == ' ' || c == '\t' || c == '\n' || c == '\r' || c == '\x0b' || c == '\x0c'

/-- `str.splitlines(keepends=True)` for strings whose only line boundary is
`'\n'` (the only line boundary occurring in the generator's text). -/
def splitLinesKeepEnds : Str → List Str
  | [] => []
  | c :: rest =>
    if c = '\n' then ['\n'] :: splitLinesKeepEnds rest
    else
      match splitLinesKeepEnds rest with
      | [] => [[c]]
      | l :: ls => (c :: l) :: ls

/-- Does a line survive `textwrap.indent`'s default predicate
(`lambda line: line.strip()`)? -/
def lineHasContent (l : Str) : Bool := l.any (fun c => !(isPySpace c))

/-- `textwrap.indent(s, pre)`: prefix every line that contains
non-whitespace with `pre`. -/
def pyIndent (pre s : Str) : Str :=
  ((splitLinesKeepEnds s).map
    (fun l => if lineHasContent l then pre ++ l else l)).flatten

/-- `ensure_trailing_newline` (line 543 of the source):
`s + '\n' if s != '' and not s.endswith('\n') else s`. -/
def ensure_trailing_newline (s : Str) : Str :=
  if s ≠ [] ∧ s.getLast? ≠ some '\n' then s ++ ['\n'] else s

/-- Python `s.rstrip('\n')`: remove all trailing newlines. -/
def rstripNewlines (s : Str) : Str :=
  (s.reverse.dropWhile (fun c => c == '\n')).reverse

/-- Python `s.lstrip('-')`: remove all leading dashes. -/
def lstripDashes (s : Str) : Str := s.dropWhile (fun c => c == '-')

/-- Python `s.replace('-', '_')`. -/
def dashesToUnderscores (s : Str) : Str :=
  s.map (fun c => if c == '-' then '_' else c)

/-- `os.path.join` on two POSIX path components. -/
def pyPathJoin (a b : Str) : Str :=
  if b.head? = some '/' then b
  else if a = [] ∨ a.getLast? = some '/' then a ++ b
  else a ++ '/' :: b

/-- Python `s.replace(pat, repl)` (left-to-right, non-overlapping), with
explicit fuel; the generator only uses non-empty patterns. -/
def pyReplaceAux (pat repl : Str) : Nat → Str → Str
  | 0, s => s
  | fuel + 1, s =>
    if !pat.isEmpty && pat.isPrefixOf s then
      repl ++ pyReplaceAux pat repl fuel (s.drop pat.length)
    else
      match s with
      | [] => []
      | c :: rest => c :: pyReplaceAux pat repl fuel rest

/-- Python `s.replace(pat, repl)`. -/
def pyReplace (pat repl s : Str) : Str := pyReplaceAux pat repl s.length s

/-! ## The configuration model (lines 22-59 of the source) -/

/-- `Variant` (lines 22-27). -/
structure Variant where
  alltypes : Bool
  extra_3c_args : List Str := []
  friendly_name_suffix : Str := []
  is_comparative_varient : Bool := false
deriving DecidableEq

/-- `BenchmarkComponent` (lines 30-37). -/
structure BenchmarkComponent where
  friendly_name : Option Str := none
  subdir : Option Str := none
  build_dir : Option Str := none
deriving DecidableEq

/-- `BenchmarkInfo` (lines 40-54). -/
structure BenchmarkInfo where
  name : Str
  friendly_name : Str
  dir_name : Str
  build_cmds : Str
  build_converted_cmd : Str
  convert_extra : Option Str := none
  components : Option (List BenchmarkComponent) := none
  patch_dir : Option Str := none
  disallow_for_comparative_varients : Bool := false
deriving DecidableEq

/-- `BenchmarkInfo.is_allowed` (lines 56-59). -/
def BenchmarkInfo.is_allowed (b : BenchmarkInfo) (v : Variant) : Bool :=
  !b.disallow_for_comparative_varients || !v.is_comparative_varient

/-- `stats_filenames` (lines 109-112). -/
def stats_filenames : List Str :=
  [lit "PerWildPtrStats.json", lit "TotalConstraintStats.json.aggregate.json",
   lit "TotalConstraintStats.json", lit "WildPtrStats.json"]

/-! ## Steps (lines 489-540): `RunStep` and `ActionStep` as a closed sum -/

/-- A `Step`: either a `RunStep` (name, shell body) or an `ActionStep`
(name, action name, key/value arguments in insertion order). -/
inductive Step where
  | run (name : Str) (run : Str)
  | action (name : Str) (action_name : Str) (args : List (Str × Str))
deriving DecidableEq

/-- The `name` field shared by both step kinds. -/
def Step.name : Step → Str
  | .run n _ => n
  | .action n _ _ => n

/-- Is this a `RunStep`? -/
def Step.isRun : Step → Bool
  | .run _ _ => true
  | .action _ _ _ => false

/-- `format_body` (lines 516-517 and 528-534): the CI rendering of a step's
body. Total: both step kinds render successfully in the CI form. -/
def Step.format_body : Step → Str
  | .run _ r => lit "run: |\n" ++ pyIndent (lit "  ") r
  | .action _ an as =>
    lit "uses: " ++ an ++ lit "\nwith:\n" ++
      pyIndent (lit "  ")
        ((as.map (fun kv => kv.1 ++ lit ": " ++ kv.2 ++ lit "\n")).flatten)

/-- `format_local` (lines 519-520 and 536-540): the local-script rendering.
`ActionStep.format_local` raises `NotImplementedError`, modelled as `none`. -/
def Step.format_local : Step → Option Str
  | .run n r => some (lit "\n## " ++ n ++ lit "\n" ++ r)
  | .action _ _ _ => none

/-- `Step.__str__` (lines 502-505): the full CI rendering of one step. -/
def Step.toCI (s : Step) : Str :=
  pyIndent (lit "      ")
    (lit "- name: " ++ s.name ++ lit "\n" ++ pyIndent (lit "  ") s.format_body)

/-! ## Subvariant expansion (lines 556-594) -/

/-- The normalized name fragment derived from one extra 3c argument
(line 575): `earg.lstrip('-').replace('-', '_')`. -/
def normalize_earg (e : Str) : Str := dashesToUnderscores (lstripDashes e)

/-- The subvariant name as computed on lines 557-558, before the
extra-argument suffixes are appended.  This is the value against which the
`--subvariant` filter is checked on line 559. -/
def subvariant_base_name (expand_macros : Bool) (variant : Variant) : Str :=
  (if expand_macros then [] else lit "no_") ++ lit "expand_macros_" ++
  (if variant.alltypes then [] else lit "no_") ++ lit "alltypes"

/-- The final subvariant name: the loop on lines 573-575 appends
`'_' + earg.lstrip('-').replace('-', '_')` for each extra argument. -/
def subvariant_name (expand_macros : Bool) (variant : Variant) : Str :=
  variant.extra_3c_args.foldl (fun n e => n ++ '_' :: normalize_earg e)
    (subvariant_base_name expand_macros variant)

/-- `subvariant_convert_extra` (lines 562-574): the tool-argument fragment. -/
def subvariant_convert_extra (expand_macros : Bool) (variant : Variant) : Str :=
  variant.extra_3c_args.foldl
    (fun s e => s ++ (lit "--extra-3c-arg=" ++ e ++ lit " \\\n"))
    ((if variant.alltypes then lit "--extra-3c-arg=-alltypes \\\n" else []) ++
     (if expand_macros then lit "--expand_macros_before_conversion \\\n" else []))

/-- `subvariant_friendly` (lines 577-580): the human label. -/
def subvariant_friendly (expand_macros : Bool) (variant : Variant) : Str :=
  (if expand_macros then [] else lit "not ") ++ lit "macro-expanded, " ++
  (if variant.alltypes then [] else lit "no ") ++ lit "-alltypes" ++
  variant.friendly_name_suffix

/-- `subvariant_dir` (line 581). -/
def subvariant_dir (expand_macros : Bool) (variant : Variant) : Str :=
  lit "$\x7b\x7benv.benchmark_conv_dir\x7d\x7d/" ++ subvariant_name expand_macros variant

/-- `benchmark_convert_extra` (lines 582-583). -/
def benchmark_convert_extra (binfo : BenchmarkInfo) : Str :=
  match binfo.convert_extra with
  | some s => ensure_trailing_newline s
  | none => []

/-- `benchmark_dir` (line 612). -/
def benchmark_dir (binfo : BenchmarkInfo) (expand_macros : Bool) (variant : Variant) : Str :=
  subvariant_dir expand_macros variant ++ '/' :: binfo.dir_name

/-! ## Step builder (lines 612-743) -/

/-- `apply_patch_cmd` (lines 614-618).  Python tests `if binfo.patch_dir:`,
which is falsy for both `None` and the empty string. -/
def apply_patch_cmd (binfo : BenchmarkInfo) : Str :=
  match binfo.patch_dir with
  | some p =>
    if p = [] then []
    else lit "for i in $\x7b\x7benv.benchmark_tar_dir\x7d\x7d/" ++ p ++
         lit "/*; do patch -s -p0 < $i; done\n"
  | none => []

/-- `full_build_cmds` (lines 619-631). -/
def full_build_cmds (binfo : BenchmarkInfo) (expand_macros : Bool) (variant : Variant) : Str :=
  lit "mkdir -p " ++ subvariant_dir expand_macros variant ++
  lit "\ncd " ++ subvariant_dir expand_macros variant ++
  lit "\nrm -rf " ++ binfo.dir_name ++
  lit "\ntar -xvzf $\x7b\x7benv.benchmark_tar_dir\x7d\x7d/" ++ binfo.dir_name ++ lit ".tar.gz\n" ++
  apply_patch_cmd binfo ++
  lit "cd " ++ binfo.dir_name ++ lit "\n" ++
  ensure_trailing_newline binfo.build_cmds

/-- The initial build step (lines 633-635). -/
def build_step (binfo : BenchmarkInfo) (expand_macros : Bool) (variant : Variant) : Step :=
  .run (lit "Build " ++ binfo.friendly_name) (full_build_cmds binfo expand_macros variant)

/-- The resolved component list (lines 637-639): the declared components, or
one implicit component carrying the benchmark's friendly name. -/
def resolved_components (binfo : BenchmarkInfo) : List BenchmarkComponent :=
  match binfo.components with
  | some cs => cs
  | none => [{ friendly_name := some binfo.friendly_name }]

/-- `defer_failure` (line 641): more than one component. -/
def defer_failure (binfo : BenchmarkInfo) : Bool :=
  decide ((resolved_components binfo).length > 1)

/-- `failed_components_fname` (line 642). -/
def failed_components_fname (binfo : BenchmarkInfo) (expand_macros : Bool) (variant : Variant) : Str :=
  benchmark_dir binfo expand_macros variant ++ lit "/failed-components-list.txt"

/-- `component_dir` (lines 644-646).  Python checks `is not None`. -/
def component_dir (binfo : BenchmarkInfo) (expand_macros : Bool) (variant : Variant)
    (c : BenchmarkComponent) : Str :=
  benchmark_dir binfo expand_macros variant ++
  (match c.subdir with
   | some s => '/' :: s
   | none => [])

/-- `component_friendly_name` (lines 647-648).  Python's
`component.friendly_name or binfo.friendly_name` also falls back on an
empty string. -/
def component_friendly_name (binfo : BenchmarkInfo) (c : BenchmarkComponent) : Str :=
  match c.friendly_name with
  | some f => if f = [] then binfo.friendly_name else f
  | none => binfo.friendly_name

/-- `convert_flags` (lines 650-660): the argument block of the conversion
tool invocation, indented by two spaces. -/
def convert_flags (binfo : BenchmarkInfo) (expand_macros : Bool) (variant : Variant)
    (c : BenchmarkComponent) : Str :=
  pyIndent (lit "  ")
    (benchmark_convert_extra binfo ++
     lit "--prog_name $\x7b\x7benv.builddir\x7d\x7d/bin/3c \\\n" ++
     subvariant_convert_extra expand_macros variant ++
     lit "--project_path ." ++
     (match c.build_dir with
      | some d => lit " \\\n--build_dir " ++ d
      | none => []) ++
     lit "\n")

/-- The conversion step for one component (lines 661-667). -/
def convert_step (binfo : BenchmarkInfo) (expand_macros : Bool) (variant : Variant)
    (c : BenchmarkComponent) : Step :=
  .run (lit "Convert " ++ component_friendly_name binfo c)
    (lit "cd " ++ component_dir binfo expand_macros variant c ++
     lit "\n$\x7b\x7benv.port_tools\x7d\x7d/convert_project.py \\\n" ++
     convert_flags binfo expand_macros variant c)

/-- The stats steps for one component (lines 669-713), emitted only when
`generate_stats` is on: locally a single zip step, on CI a copy step
followed by an upload `ActionStep`. -/
def stats_steps (binfo : BenchmarkInfo) (expand_macros : Bool) (variant : Variant)
    (c : BenchmarkComponent) (run_locally : Bool) : List Step :=
  let cfn := component_friendly_name binfo c
  let perf_artifact_name := cfn ++ '_' :: subvariant_name expand_macros variant
  if run_locally then
    [.run (lit "Save 3c stats of " ++ cfn)
      (lit "cd " ++ component_dir binfo expand_macros variant c ++
       lit "\nmkdir -p $\x7b\x7benv.benchmark_conv_dir\x7d\x7d/stats\nrm -f " ++
       lit "$\x7b\x7benv.benchmark_conv_dir\x7d\x7d/stats/" ++ perf_artifact_name ++
       lit ".zip\nzip $\x7b\x7benv.benchmark_conv_dir\x7d\x7d/stats/" ++ perf_artifact_name ++
       lit ".zip " ++ List.intercalate (lit " ") stats_filenames ++ lit "\n")]
  else
    [.run (lit "Copy 3c stats of " ++ cfn)
      (lit "cd " ++ component_dir binfo expand_macros variant c ++
       lit "\nmkdir 3c_performance_stats/\ncp " ++
       List.intercalate (lit " ") stats_filenames ++ lit " 3c_performance_stats/\n"),
     .action (lit "Upload 3c stats of " ++ cfn) (lit "actions/upload-artifact@v2")
       [(lit "name", perf_artifact_name),
        (lit "path", pyPathJoin (component_dir binfo expand_macros variant c)
                       (lit "3c_performance_stats/")),
        (lit "retention-days", lit "5")]]

/-- The build-converted step for one component (lines 715-732). -/
def build_converted_step (binfo : BenchmarkInfo) (expand_macros : Bool) (variant : Variant)
    (c : BenchmarkComponent) (defer : Bool) : Step :=
  let cfn := component_friendly_name binfo c
  .run (lit "Build converted " ++ cfn ++
        (if variant.alltypes then lit " (filter bounds inference errors)" else []) ++
        (if defer then lit " (defer failure)" else []))
    (lit "cd " ++ component_dir binfo expand_macros variant c ++
     lit "\nif [ -e \"out.checked\" ]; then cp -r out.checked/* . && rm -r out.checked; fi\n" ++
     (match c.build_dir with
      | some d => lit "cd " ++ d ++ lit "\n"
      | none => []) ++
     rstripNewlines binfo.build_converted_cmd ++
     (if variant.alltypes then
        lit " 2>&1 | $\x7b\x7benv.actions_repo\x7d\x7d/filter-bounds-inference-errors.py"
      else []) ++
     (if defer then
        lit " || echo " ++ cfn ++ lit " >>" ++ failed_components_fname binfo expand_macros variant
      else []) ++
     lit "\n")

/-- The trailing aggregate failure-check step (lines 734-743). -/
def check_step (binfo : BenchmarkInfo) (expand_macros : Bool) (variant : Variant) : Step :=
  .run (lit "Check for deferred post-conversion build failures")
    (lit "if [ -e " ++ failed_components_fname binfo expand_macros variant ++
     lit " ]; then\n    echo 'Failed components (see previous post-conversion build steps):'\n    cat " ++
     failed_components_fname binfo expand_macros variant ++
     lit "\n    exit 1\nfi\n")

/-- The block of steps appended for one component by the loop body
(lines 643-732): conversion, optional stats step(s), build-converted. -/
def component_steps (binfo : BenchmarkInfo) (expand_macros : Bool) (variant : Variant)
    (generate_stats run_locally defer : Bool) (c : BenchmarkComponent) : List Step :=
  [convert_step binfo expand_macros variant c] ++
  (if generate_stats then stats_steps binfo expand_macros variant c run_locally else []) ++
  [build_converted_step binfo expand_macros variant c defer]

/-- The full step list built by `generate_benchmark_job` (lines 633-743):
the build step, then the loop over components, then the aggregate check
when there is more than one component. -/
def job_steps (binfo : BenchmarkInfo) (expand_macros : Bool) (variant : Variant)
    (generate_stats run_locally : Bool) : List Step :=
  let steps :=
    (resolved_components binfo).foldl
      (fun acc c =>
        acc ++ component_steps binfo expand_macros variant generate_stats run_locally
                 (defer_failure binfo) c)
      [build_step binfo expand_macros variant]
  if defer_failure binfo then steps ++ [check_step binfo expand_macros variant] else steps

/-! ## Job emission (lines 547-751) -/

/-- The local-mode job header written on line 599. -/
def local_job_header (binfo : BenchmarkInfo) (expand_macros : Bool) (variant : Variant) : Str :=
  lit "\n# Test " ++ binfo.friendly_name ++ lit " (" ++
  subvariant_friendly expand_macros variant ++ lit ")\n"

/-- The CI job header written on lines 603-610. -/
def ci_job_header (binfo : BenchmarkInfo) (expand_macros : Bool) (variant : Variant) : Str :=
  lit "\n  test_" ++ binfo.name ++ '_' :: subvariant_name expand_macros variant ++
  lit ":\n    name: Test " ++ binfo.friendly_name ++ lit " (" ++
  subvariant_friendly expand_macros variant ++
  lit ")\n    needs: build_3c\n    runs-on: self-hosted\n    steps:\n"

/-- `''.join(s.format_local() for s in steps)` (line 746); a raised
`NotImplementedError` from an `ActionStep` is modelled as `none`. -/
def render_local_steps : List Step → Option Str
  | [] => some []
  | s :: rest =>
    match s.format_local, render_local_steps rest with
    | some t, some r => some (t ++ r)
    | _, _ => none

/-- `generate_benchmark_job` (lines 547-751), as a function from its inputs
(including the `--subvariant` filter list read from `args.subvariants`) to
the text it writes to `out`; `none` models a raised exception.  Writing
nothing is `some []`. -/
def generate_benchmark_job (binfo : BenchmarkInfo) (expand_macros : Bool) (variant : Variant)
    (generate_stats run_locally : Bool) (subvariants : List Str) : Option Str :=
  if binfo.is_allowed variant = false then some []
  else if subvariants ≠ [] ∧ subvariant_base_name expand_macros variant ∉ subvariants then
    some []
  else if run_locally then
    (render_local_steps (job_steps binfo expand_macros variant generate_stats run_locally)).map
      (fun body => local_job_header binfo expand_macros variant ++ body)
  else
    some (ci_job_header binfo expand_macros variant ++
      List.intercalate (lit "\n")
        ((job_steps binfo expand_macros variant generate_stats run_locally).map Step.toCI))

/-- `WorkflowConfig` (lines 753-762). -/
structure WorkflowConfig where
  filename : Str
  friendly_name : Str
  variants : List Variant
  cron_timestamp : Option Str := none
  generate_stats : Bool := false
deriving DecidableEq

/-- `workflow_file_configs` (lines 765-805). -/
def workflow_file_configs : List WorkflowConfig :=
  [{ filename := lit "main",
     friendly_name := lit "3C benchmark tests",
     variants := [{ alltypes := false }, { alltypes := true }],
     cron_timestamp := some (lit "0 5 * * *") },
   { filename := lit "exhaustivestats",
     friendly_name := lit "Exhaustive testing and Performance Stats",
     variants := [{ alltypes := false }, { alltypes := true }],
     generate_stats := true },
   { filename := lit "exhaustiveleastgreatest",
     friendly_name := lit "Exhaustive testing and Performance Stats (Least and Greatest)",
     variants := [{ alltypes := true, extra_3c_args := [lit "-only-g-sol"],
                    friendly_name_suffix := lit ", greatest solution",
                    is_comparative_varient := true },
                  { alltypes := true, extra_3c_args := [lit "-only-l-sol"],
                    friendly_name_suffix := lit ", least solution",
                    is_comparative_varient := true }],
     generate_stats := true },
   { filename := lit "exhaustiveccured",
     friendly_name := lit "Exhaustive testing and Performance Stats (CCured)",
     variants := [{ alltypes := true, extra_3c_args := [lit "-disable-rds"],
                    friendly_name_suffix := lit ", CCured solution",
                    is_comparative_varient := true },
                  { alltypes := true, extra_3c_args := [lit "-disable-fnedgs"],
                    friendly_name_suffix := lit ", FuncRevEdges solution",
                    is_comparative_varient := true }],
     generate_stats := true }]

/-- The inner loops of `generate_benchmark_jobs` (lines 813-816): for one
benchmark and one macro-expansion flag, emit a job per variant in order. -/
def generate_variant_jobs (binfo : BenchmarkInfo) (expand_macros : Bool)
    (variants : List Variant) (generate_stats run_locally : Bool)
    (subvariants : List Str) : Option Str :=
  match variants with
  | [] => some []
  | v :: rest =>
    match generate_benchmark_job binfo expand_macros v generate_stats run_locally subvariants,
          generate_variant_jobs binfo expand_macros rest generate_stats run_locally subvariants with
    | some a, some b => some (a ++ b)
    | _, _ => none

/-- `generate_benchmark_jobs` (lines 808-816): iterate benchmarks (filtered
by `args.benchmarks`) x \{False, True\} macro-expansion x variants. -/
def generate_benchmark_jobs (bs : List BenchmarkInfo) (config : WorkflowConfig)
    (run_locally : Bool) (benchmarks_filter subvariants : List Str) : Option Str :=
  match bs with
  | [] => some []
  | b :: rest =>
    let this_benchmark :=
      if benchmarks_filter ≠ [] ∧ b.name ∉ benchmarks_filter then some []
      else
        match generate_variant_jobs b false config.variants config.generate_stats
                run_locally subvariants,
              generate_variant_jobs b true config.variants config.generate_stats
                run_locally subvariants with
        | some a, some b' => some (a ++ b')
        | _, _ => none
    match this_benchmark,
          generate_benchmark_jobs rest config run_locally benchmarks_filter subvariants with
    | some a, some b' => some (a ++ b')
    | _, _ => none

/-! ## Local-mode generation (lines 819-992).

The operating-system interactions of local mode (absolute-path resolution,
path-existence tests, the location of the generator script) are modelled as
function parameters; `sys.exit` via `fatal_error` is modelled as
`Except.error`, so an error result means the process terminates before the
output file is opened (the output file is only opened on line 959, after
all checks and after the whole script text has been built in memory). -/

/-- The parsed `local` subcommand arguments (lines 834-902). -/
structure LocalArgs where
  out_fname : Str
  _3c_source_dir : Str
  _3c_build_dir : Str
  checkedc_benchmarks_dir : Str
  work_dir : Str
  use_built_extra_tools : Bool
  workflow_config : Str
  benchmarks : List Str
  subvariants : List Str
deriving DecidableEq

/-- `get_extra_tool_path` (lines 942-944). -/
def get_extra_tool_path (local_3c_build_dir : Str) (use_built_extra_tools : Bool)
    (name : Str) : Str :=
  if use_built_extra_tools then pyPathJoin (pyPathJoin local_3c_build_dir (lit "bin")) name
  else name

/-- `env_replacements` (lines 946-955), in insertion order. -/
def env_replacements (script_dir benchmarks_dir work_dir_abs build_dir port_tools_dir : Str)
    (use_built_extra_tools : Bool) : List (Str × Str) :=
  [(lit "actions_repo", script_dir),
   (lit "benchmark_tar_dir", benchmarks_dir),
   (lit "benchmark_conv_dir", work_dir_abs),
   (lit "builddir", build_dir),
   (lit "port_tools", port_tools_dir),
   (lit "clang_rename", get_extra_tool_path build_dir use_built_extra_tools (lit "clang-rename"))]

/-- The placeholder substitution loop (lines 956-957). -/
def apply_env_replacements (reps : List (Str × Str)) (script : Str) : Str :=
  reps.foldl
    (fun s kv => pyReplace (lit "$\x7b\x7benv." ++ kv.1 ++ lit "\x7d\x7d") kv.2 s)
    script

/-- The script preamble written on lines 932-938. -/
def local_script_preamble (config : WorkflowConfig) : Str :=
  lit "#!/bin/bash\n# This script was generated by `generate-workflow.py local` but may be manually\n# edited by a user for customization.\n#\n# Workflow configuration name: " ++
  config.filename ++ lit "\n"

/-- `generate_local_script` (lines 930-960), producing the full script text
to be written to `args.out_fname`. -/
def generate_local_script (bs : List BenchmarkInfo) (config : WorkflowConfig)
    (script_dir benchmarks_dir work_dir_abs build_dir port_tools_dir : Str)
    (use_built_extra_tools : Bool) (benchmarks_filter subvariants : List Str) : Option Str :=
  (generate_benchmark_jobs bs config true benchmarks_filter subvariants).map
    (fun body =>
      apply_env_replacements
        (env_replacements script_dir benchmarks_dir work_dir_abs build_dir port_tools_dir
          use_built_extra_tools)
        (local_script_preamble config ++ body))

/-- The whole `local` entry point (lines 963-992): sanity-check the three
resolved paths, look up the workflow configuration, and only then build and
write the script.  `.error` models `fatal_error` (or a propagated
exception), both of which terminate the process before the output file is
opened; `.ok` carries the file name and the text written to it. -/
def run_local_mode (abspath : Str → Str) (path_exists : Str → Bool)
    (script_dir : Str) (bs : List BenchmarkInfo) (a : LocalArgs) :
    Except Str (Str × Str) :=
  if path_exists (abspath a._3c_build_dir ++ lit "/bin/3c") = false then
    .error (lit "Error: " ++ abspath a._3c_build_dir ++ lit "/bin/3c does not exist.")
  else if path_exists (abspath a._3c_source_dir ++
                       lit "/clang/tools/3c/utils/port_tools") = false then
    .error (lit "Error: " ++ abspath a._3c_source_dir ++
            lit "/clang/tools/3c/utils/port_tools does not exist.")
  else if path_exists a.checkedc_benchmarks_dir = false then
    .error (lit "Error: " ++ a.checkedc_benchmarks_dir ++ lit " does not exist.")
  else
    match (workflow_file_configs.filter
            (fun c => decide (c.filename = a.workflow_config))).head? with
    | none =>
      .error (lit "Error: No such workflow configuration \"" ++ a.workflow_config ++ lit "\".")
    | some config =>
      match generate_local_script bs config script_dir a.checkedc_benchmarks_dir
              (abspath a.work_dir) (abspath a._3c_build_dir)
              (abspath a._3c_source_dir ++ lit "/clang/tools/3c/utils/port_tools")
              a.use_built_extra_tools a.benchmarks a.subvariants with
      | some script => .ok (a.out_fname, script)
      | none => .error (lit "ActionStep currently isn't supported locally.")

/-- The files the local entry point writes: none on a fatal error, exactly
the output script on success. -/
def local_mode_written_files (abspath : Str → Str) (path_exists : Str → Bool)
    (script_dir : Str) (bs : List BenchmarkInfo) (a : LocalArgs) : List (Str × Str) :=
  match run_local_mode abspath path_exists script_dir bs a with
  | .error _ => []
  | .ok f => [f]

/-! ## Sample inputs used by witnesses and counterexamples -/

/-- A one-component benchmark (arbitrary concrete input for the
universally quantified theorems). -/
def sampleBenchmark : BenchmarkInfo :=
  { name := lit "vs", friendly_name := lit "Vs", dir_name := lit "vs-1",
    build_cmds := lit "make\n", build_converted_cmd := lit "make -k\n" }

/-- A comparative variant with one extra 3c argument. -/
def sampleVariant : Variant :=
  { alltypes := true, extra_3c_args := [lit "-only-g-sol"],
    friendly_name_suffix := lit ", greatest solution", is_comparative_varient := true }

/-- A variant with no extra arguments and no comparative flag. -/
def plainVariant : Variant := { alltypes := false }

/-- `sampleBenchmark` with the comparative opt-out flag set. -/
def sampleOptOutBenchmark : BenchmarkInfo :=
  { sampleBenchmark with disallow_for_comparative_varients := true }

/-- Concrete `local`-mode arguments. -/
def sampleLocalArgs : LocalArgs :=
  { out_fname := lit "run.sh", _3c_source_dir := lit "/src", _3c_build_dir := lit "/build",
    checkedc_benchmarks_dir := lit "/bench", work_dir := lit "/work",
    use_built_extra_tools := false, workflow_config := lit "main",
    benchmarks := [], subvariants := [] }

/-! ## Helper lemmas -/

/-- A left fold that appends a block per element is the initial value
followed by the concatenation of the blocks in order. -/
theorem foldl_append_eq_flatten {α β : Type} (f : α → List β) :
    ∀ (l : List α) (init : List β),
      l.foldl (fun acc x => acc ++ f x) init = init ++ (l.map f).flatten
  | [], init => by simp
  | x :: xs, init => by
    simp only [List.foldl_cons, List.map_cons, List.flatten_cons]
    rw [foldl_append_eq_flatten f xs (init ++ f x), List.append_assoc]

theorem splitLines_ne_nil : ∀ (s : Str), s ≠ [] → splitLinesKeepEnds s ≠ []
  | [], h => absurd rfl h
  | _ :: rest, _ => by
    simp only [splitLinesKeepEnds]
    split
    · simp
    · split <;> simp

theorem splitLines_cons (c : Char) (rest : Str) :
    splitLinesKeepEnds (c :: rest) =
      if c = '\n' then ['\n'] :: splitLinesKeepEnds rest
      else
        match splitLinesKeepEnds rest with
        | [] => [[c]]
        | l :: ls => (c :: l) :: ls := rfl

/-- Splitting into kept-end lines distributes over an append whose left
part ends with a newline. -/
theorem splitLines_append_newline :
    ∀ (t b : Str), splitLinesKeepEnds (t ++ '\n' :: b) =
      splitLinesKeepEnds (t ++ ['\n']) ++ splitLinesKeepEnds b
  | [], b => by simp [splitLinesKeepEnds]
  | c :: t', b => by
    have ih := splitLines_append_newline t' b
    by_cases hc : c = '\n'
    · subst hc
      rw [List.cons_append, List.cons_append, splitLines_cons, splitLines_cons,
          if_pos rfl, if_pos rfl, ih, List.cons_append]
    · rw [List.cons_append, List.cons_append, splitLines_cons, splitLines_cons,
          if_neg hc, if_neg hc, ih]
      have h1 : splitLinesKeepEnds (t' ++ ['\n']) ≠ [] :=
        splitLines_ne_nil _ (by simp)
      cases h2 : splitLinesKeepEnds (t' ++ ['\n']) with
      | nil => exact absurd h2 h1
      | cons l ls => simp

/-- The strings after which `pyIndent` distributes over append: empty or
newline-terminated. -/
def EndsNlOrNil (s : Str) : Prop := s = [] ∨ ∃ t, s = t ++ ['\n']

theorem EndsNlOrNil.append {a b : Str} (ha : EndsNlOrNil a) (hb : EndsNlOrNil b) :
    EndsNlOrNil (a ++ b) := by
  rcases hb with rfl | ⟨t, rfl⟩
  · simpa using ha
  · exact Or.inr ⟨a ++ t, by rw [List.append_assoc]⟩

theorem EndsNlOrNil.flatten :
    ∀ {l : List Str}, (∀ x ∈ l, EndsNlOrNil x) → EndsNlOrNil l.flatten
  | [], _ => Or.inl rfl
  | x :: xs, h => by
    rw [List.flatten_cons]
    exact (h x (by simp)).append (EndsNlOrNil.flatten (fun y hy => h y (by simp [hy])))

/-- `textwrap.indent` distributes over append when the left part is empty
or newline-terminated. -/
theorem pyIndent_append {a : Str} (ha : EndsNlOrNil a) (pre b : Str) :
    pyIndent pre (a ++ b) = pyIndent pre a ++ pyIndent pre b := by
  rcases ha with rfl | ⟨t, rfl⟩
  · simp [pyIndent, splitLinesKeepEnds]
  · rw [pyIndent, pyIndent, pyIndent, List.append_assoc, List.singleton_append,
        splitLines_append_newline, List.map_append, List.flatten_append]

theorem ends_of_getLast?_newline :
    ∀ (s : Str), s.getLast? = some '\n' → ∃ t, s = t ++ ['\n']
  | [], h => by simp at h
  | [c], h => by
    simp only [List.getLast?_singleton, Option.some.injEq] at h
    exact ⟨[], by simp [h]⟩
  | c :: d :: rest, h => by
    rw [List.getLast?_cons_cons] at h
    obtain ⟨t, ht⟩ := ends_of_getLast?_newline (d :: rest) h
    exact ⟨c :: t, by simp [ht]⟩

theorem ensure_trailing_newline_ends (s : Str) : EndsNlOrNil (ensure_trailing_newline s) := by
  unfold ensure_trailing_newline
  split
  · exact Or.inr ⟨s, rfl⟩
  · next h =>
    push_neg at h
    by_cases hs : s = []
    · exact Or.inl hs
    · exact Or.inr (ends_of_getLast?_newline s (h hs))

theorem benchmark_convert_extra_ends (binfo : BenchmarkInfo) :
    EndsNlOrNil (benchmark_convert_extra binfo) := by
  unfold benchmark_convert_extra
  cases binfo.convert_extra with
  | some s => exact ensure_trailing_newline_ends s
  | none => exact Or.inl rfl

theorem subvariant_convert_extra_ends (m : Bool) (v : Variant) :
    EndsNlOrNil (subvariant_convert_extra m v) := by
  unfold subvariant_convert_extra
  rw [foldl_append_eq_flatten]
  refine EndsNlOrNil.append (EndsNlOrNil.append ?_ ?_) (EndsNlOrNil.flatten ?_)
  · cases v.alltypes
    · exact Or.inl (by simp)
    · exact Or.inr ⟨lit "--extra-3c-arg=-alltypes \\", by decide⟩
  · cases m
    · exact Or.inl (by simp)
    · exact Or.inr ⟨lit "--expand_macros_before_conversion \\", by decide⟩
  · intro x hx
    simp only [List.mem_map] at hx
    obtain ⟨e, _, rfl⟩ := hx
    exact Or.inr ⟨lit "--extra-3c-arg=" ++ e ++ lit " \\",
      by rw [show lit " \\\n" = lit " \\" ++ ['\n'] from by decide, ← List.append_assoc]⟩

/-- The step list, restructured: build step, one block per component in
order, optional trailing check step. -/
theorem job_steps_structure (binfo : BenchmarkInfo) (m : Bool) (v : Variant) (g loc : Bool) :
    job_steps binfo m v g loc =
      [build_step binfo m v] ++
      ((resolved_components binfo).map
        (component_steps binfo m v g loc (defer_failure binfo))).flatten ++
      (if defer_failure binfo then [check_step binfo m v] else []) := by
  unfold job_steps
  rw [foldl_append_eq_flatten]
  split <;> simp [List.append_assoc]

theorem flatten_map_const_length {α : Type} (f : α → List Step) (k : Nat)
    (hf : ∀ c, (f c).length = k) :
    ∀ l : List α, ((l.map f).flatten).length = l.length * k
  | [] => by simp
  | x :: xs => by
    simp only [List.map_cons, List.flatten_cons, List.length_append, hf x,
      flatten_map_const_length f k hf xs, List.length_cons]
    ring

theorem stats_steps_length (binfo : BenchmarkInfo) (m : Bool) (v : Variant)
    (c : BenchmarkComponent) (loc : Bool) :
    (stats_steps binfo m v c loc).length = if loc then 1 else 2 := by
  cases loc <;> simp [stats_steps]

theorem component_steps_length (binfo : BenchmarkInfo) (m : Bool) (v : Variant)
    (g loc defer : Bool) (c : BenchmarkComponent) :
    (component_steps binfo m v g loc defer c).length =
      2 + (if g then (if loc then 1 else 2) else 0) := by
  cases g <;> cases loc <;> simp [component_steps, stats_steps]

theorem all_flatten {p : Step → Bool} :
    ∀ (l : List (List Step)), (∀ x ∈ l, x.all p = true) → l.flatten.all p = true
  | [], _ => rfl
  | x :: xs, h => by
    rw [List.flatten_cons, List.all_append, h x (by simp),
        all_flatten xs (fun y hy => h y (by simp [hy]))]
    rfl

theorem component_steps_local_all_run (binfo : BenchmarkInfo) (m : Bool) (v : Variant)
    (g defer : Bool) (c : BenchmarkComponent) :
    (component_steps binfo m v g true defer c).all Step.isRun = true := by
  cases g <;>
    simp [component_steps, stats_steps, convert_step, build_converted_step, Step.isRun]

/-- In local mode, every step the builder produces is a `RunStep`. -/
theorem job_steps_local_all_run (binfo : BenchmarkInfo) (m : Bool) (v : Variant) (g : Bool) :
    (job_steps binfo m v g true).all Step.isRun = true := by
  rw [job_steps_structure, List.all_append, List.all_append]
  have h1 : ([build_step binfo m v].all Step.isRun) = true := by
    simp [build_step, Step.isRun]
  have h2 : (((resolved_components binfo).map
      (component_steps binfo m v g true (defer_failure binfo))).flatten.all Step.isRun) = true := by
    refine all_flatten _ ?_
    intro x hx
    simp only [List.mem_map] at hx
    obtain ⟨c, _, rfl⟩ := hx
    exact component_steps_local_all_run binfo m v g (defer_failure binfo) c
  have h3 : ((if defer_failure binfo then [check_step binfo m v] else []).all Step.isRun) = true := by
    cases h : defer_failure binfo <;> simp [check_step, Step.isRun]
  rw [h1, h2, h3]
  rfl

theorem render_local_steps_isSome :
    ∀ (l : List Step), l.all Step.isRun = true → ∃ r, render_local_steps l = some r
  | [], _ => ⟨[], rfl⟩
  | s :: rest, h => by
    rw [List.all_cons, Bool.and_eq_true] at h
    obtain ⟨r, hr⟩ := render_local_steps_isSome rest h.2
    cases s with
    | run n b =>
      refine ⟨lit "\n## " ++ n ++ lit "\n" ++ b ++ r, ?_⟩
      simp [render_local_steps, Step.format_local, hr, List.append_assoc]
    | action n an as => exact absurd h.1 (by simp [Step.isRun])

/-- In local mode, rendering the built step list never fails. -/
theorem render_job_steps_local_isSome (binfo : BenchmarkInfo) (m : Bool) (v : Variant)
    (g : Bool) :
    ∃ r, render_local_steps (job_steps binfo m v g true) = some r :=
  render_local_steps_isSome _ (job_steps_local_all_run binfo m v g)

theorem append_ne_nil_left {a : Str} (ha : a ≠ []) (b : Str) : a ++ b ≠ [] := by
  cases a
  · exact absurd rfl ha
  · simp

theorem ci_job_header_ne_nil (binfo : BenchmarkInfo) (m : Bool) (v : Variant) :
    ci_job_header binfo m v ≠ [] := by
  unfold ci_job_header
  simp only [List.append_assoc]
  exact append_ne_nil_left (by decide) _

theorem local_job_header_ne_nil (binfo : BenchmarkInfo) (m : Bool) (v : Variant) :
    local_job_header binfo m v ≠ [] := by
  unfold local_job_header
  simp only [List.append_assoc]
  exact append_ne_nil_left (by decide) _

/-- All (macro-expand flag, variant) inputs that occur across the
repository's workflow configurations, in generation order. -/
def config_subvariant_inputs : List (Bool × Variant) :=
  workflow_file_configs.flatMap
    (fun c => [false, true].flatMap (fun m => c.variants.map (fun v => (m, v))))

/-- The number of steps in one job, as a function of the generate-stats
flag, the local/CI rendering mode, and the component count alone. -/
def job_step_count (g loc : Bool) (n : Nat) : Nat :=
  1 + n * (2 + (if g then (if loc then 1 else 2) else 0)) + (if n > 1 then 1 else 0)

/-! ## The claims -/

/-- C1: For every Variant and macro-expand flag, the derived subvariant
identifier equals `("" or "no_") + "expand_macros_" + ("" or "no_") +
"alltypes"` followed, for each extra argument in order, by `'_'` plus the
argument with leading dashes stripped and remaining dashes replaced by
underscores, and the derived human label equals
`("" or "not ") + "macro-expanded, " + ("" or "no ") + "-alltypes" +
friendly_name_suffix`; in particular `Variant(alltypes=True,
extra_3c_args=['-only-g-sol'], friendly_name_suffix=', greatest solution')`
with macro-expand=False yields identifier
`no_expand_macros_alltypes_only_g_sol` and label
`not macro-expanded, -alltypes, greatest solution`. -/
theorem c1_subvariant_identifier_and_label :
    (∀ (m : Bool) (v : Variant),
      subvariant_name m v =
        (if m then [] else lit "no_") ++ lit "expand_macros_" ++
        (if v.alltypes then [] else lit "no_") ++ lit "alltypes" ++
        (v.extra_3c_args.map
          (fun e => '_' :: (e.dropWhile (fun c => c == '-')).map
            (fun c => if c == '-' then '_' else c))).flatten ∧
      subvariant_friendly m v =
        (if m then [] else lit "not ") ++ lit "macro-expanded, " ++
        (if v.alltypes then [] else lit "no ") ++ lit "-alltypes" ++
        v.friendly_name_suffix) ∧
    subvariant_name false sampleVariant = lit "no_expand_macros_alltypes_only_g_sol" ∧
    subvariant_friendly false sampleVariant =
      lit "not macro-expanded, -alltypes, greatest solution" := by
  refine ⟨fun m v => ⟨?_, rfl⟩, by decide, by decide⟩
  rw [subvariant_name, foldl_append_eq_flatten]
  simp [subvariant_base_name, normalize_earg, dashesToUnderscores, lstripDashes,
    List.append_assoc]

/-- C2: For every benchmark, the step sequence of one subvariant is exactly
one build step, then per component in declared order a conversion step, the
stats step block when stats are enabled (one zip step locally; a copy step
plus an upload step on CI), and a build-converted step, and then exactly
when the component count exceeds one, a single trailing aggregate
failure-check step. -/
theorem c2_step_sequence (binfo : BenchmarkInfo) (m : Bool) (v : Variant) (g loc : Bool) :
    job_steps binfo m v g loc =
      [build_step binfo m v] ++
      ((resolved_components binfo).map
        (fun c =>
          [convert_step binfo m v c] ++
          (if g then stats_steps binfo m v c loc else []) ++
          [build_converted_step binfo m v c (defer_failure binfo)])).flatten ++
      (if (resolved_components binfo).length > 1 then [check_step binfo m v] else []) := by
  rw [job_steps_structure]
  congr 1
  by_cases h : (resolved_components binfo).length > 1 <;> simp [defer_failure, h]

/-- C4 as stated is false: the identifier derivation is not injective in the
extra-argument list.  The single argument `-a-b` and the two arguments
`-a`, `-b` produce the same identifier although the inputs differ. -/
theorem c4_counterexample_identifier_collision :
    subvariant_name true { alltypes := true, extra_3c_args := [lit "-a-b"] } =
      subvariant_name true { alltypes := true, extra_3c_args := [lit "-a", lit "-b"] } ∧
    ([lit "-a-b"] : List Str) ≠ [lit "-a", lit "-b"] := by decide

/-- C4 (amended): restricted to the (macro-expand, variant) inputs that
actually occur in the repository's workflow configurations, the derived
subvariant identifiers are unique given (macro-expand, alltypes,
extra_3c_args): any two inputs from the configuration table with equal
identifiers agree on that triple. -/
theorem c4_config_identifiers_injective :
    List.Pairwise
      (fun p q : Bool × Variant =>
        subvariant_name p.1 p.2 = subvariant_name q.1 q.2 →
        (p.1, p.2.alltypes, p.2.extra_3c_args) = (q.1, q.2.alltypes, q.2.extra_3c_args))
      config_subvariant_inputs := by decide

/-- C6 as stated is false: with stats enabled, the step count for the very
same benchmark, subvariant, stats flag and component count differs between
local and CI rendering (the stats block is one zip step locally but a copy
step plus an upload step on CI), so step count is not a function of
(BenchmarkInfo, subvariant, generate-stats, component count) alone. -/
theorem c6_counterexample_mode_changes_step_count :
    (job_steps sampleBenchmark false sampleVariant true true).length ≠
      (job_steps sampleBenchmark false sampleVariant true false).length := by decide

/-- C6 (amended): generation is a pure function of its inputs, and the step
count for a (benchmark, subvariant) pair factors through the generate-stats
flag, the local/CI rendering mode, and the component count alone
(`job_step_count`); together with C2's ordering theorem, step count and
order depend on nothing else — there is no randomness or environment
dependence. -/
theorem c6_step_count_pure_function (binfo : BenchmarkInfo) (m : Bool) (v : Variant)
    (g loc : Bool) :
    (job_steps binfo m v g loc).length =
      job_step_count g loc (resolved_components binfo).length := by
  rw [job_steps_structure, List.length_append, List.length_append,
      flatten_map_const_length _ (2 + (if g then (if loc then 1 else 2) else 0))
        (fun c => component_steps_length binfo m v g loc (defer_failure binfo) c)]
  unfold job_step_count
  by_cases h : (resolved_components binfo).length > 1 <;>
    simp [defer_failure, h]

/-- C3 as stated is false: the filter check on line 559 uses the subvariant
name before the extra-argument suffixes are appended (lines 573-575).  With
filter list `[no_expand_macros_alltypes]` and a variant carrying the extra
argument `-only-g-sol`, the full derived identifier
`no_expand_macros_alltypes_only_g_sol` is not in the list, yet the job is
emitted because the base name is. -/
theorem c3_counterexample_filter_ignores_suffixes :
    ([lit "no_expand_macros_alltypes"] : List Str) ≠ [] ∧
    subvariant_name false sampleVariant ∉ ([lit "no_expand_macros_alltypes"] : List Str) ∧
    generate_benchmark_job sampleBenchmark false sampleVariant false false
      [lit "no_expand_macros_alltypes"] ≠ some [] := by decide

/-- C3 (amended): if a non-empty subvariant name-filter list is supplied and
the base subvariant identifier (without the extra-argument suffixes) is not
in it, `generate_benchmark_job` writes nothing at all — the check takes
effect before any output, including the local-mode header. -/
theorem c3_filter_short_circuits_on_base_name (binfo : BenchmarkInfo) (m : Bool)
    (v : Variant) (g loc : Bool) (filt : List Str)
    (h1 : filt ≠ []) (h2 : subvariant_base_name m v ∉ filt) :
    generate_benchmark_job binfo m v g loc filt = some [] := by
  unfold generate_benchmark_job
  split
  · rfl
  · rw [if_pos ⟨h1, h2⟩]

theorem c3_filter_short_circuits_on_base_name_witness :
    generate_benchmark_job sampleBenchmark false plainVariant false false
      [lit "expand_macros_alltypes"] = some [] :=
  c3_filter_short_circuits_on_base_name sampleBenchmark false plainVariant false false
    [lit "expand_macros_alltypes"] (by decide) (by decide)

/-- C5: each conversion step first changes into the component's resolved
directory (benchmark directory plus optional subdirectory), then invokes the
conversion tool with, in exactly this order: the benchmark-level
extra-argument lines, the mandatory `--prog_name` argument, the
subvariant's tool-argument fragment, `--project_path .`, and a
`--build_dir` argument exactly when the component declares a build
directory. -/
theorem c5_convert_step_argument_order (binfo : BenchmarkInfo) (m : Bool) (v : Variant)
    (c : BenchmarkComponent) :
    convert_step binfo m v c =
      .run (lit "Convert " ++ component_friendly_name binfo c)
        (lit "cd " ++ component_dir binfo m v c ++
         lit "\n$\x7b\x7benv.port_tools\x7d\x7d/convert_project.py \\\n" ++
         (pyIndent (lit "  ") (benchmark_convert_extra binfo) ++
          pyIndent (lit "  ") (lit "--prog_name $\x7b\x7benv.builddir\x7d\x7d/bin/3c \\\n") ++
          pyIndent (lit "  ") (subvariant_convert_extra m v) ++
          pyIndent (lit "  ")
            (lit "--project_path ." ++
             (match c.build_dir with
              | some d => lit " \\\n--build_dir " ++ d
              | none => []) ++ lit "\n"))) ∧
    component_dir binfo m v c =
      benchmark_dir binfo m v ++
      (match c.subdir with
       | some s => '/' :: s
       | none => []) := by
  refine ⟨?_, rfl⟩
  unfold convert_step convert_flags
  have h1 := pyIndent_append (benchmark_convert_extra_ends binfo) (lit "  ")
  have h2 := pyIndent_append
    (a := lit "--prog_name $\x7b\x7benv.builddir\x7d\x7d/bin/3c \\\n")
    (Or.inr ⟨lit "--prog_name $\x7b\x7benv.builddir\x7d\x7d/bin/3c \\", by decide⟩) (lit "  ")
  have h3 := pyIndent_append (subvariant_convert_extra_ends m v) (lit "  ")
  simp only [List.append_assoc]
  rw [h1, h2, h3]

/-- C7: a benchmark whose comparative opt-out flag is set produces no output
for any comparative variant, while for a non-comparative variant the
benchmark is never filtered by this check: output is produced (and is
non-empty) whenever the user-supplied subvariant name filter passes. -/
theorem c7_comparative_opt_out (binfo : BenchmarkInfo) (m : Bool) (v : Variant)
    (g loc : Bool) (filt : List Str) :
    (binfo.disallow_for_comparative_varients = true → v.is_comparative_varient = true →
      generate_benchmark_job binfo m v g loc filt = some []) ∧
    (v.is_comparative_varient = false →
      (filt = [] ∨ subvariant_base_name m v ∈ filt) →
      ∃ s, generate_benchmark_job binfo m v g loc filt = some s ∧ s ≠ []) := by
  constructor
  · intro hd hc
    have hal : binfo.is_allowed v = false := by
      simp [BenchmarkInfo.is_allowed, hd, hc]
    unfold generate_benchmark_job
    rw [if_pos hal]
  · intro hc hf
    have hal : ¬(binfo.is_allowed v = false) := by
      simp [BenchmarkInfo.is_allowed, hc]
    have hfl : ¬(filt ≠ [] ∧ subvariant_base_name m v ∉ filt) := by
      rcases hf with rfl | hmem
      · exact fun h => h.1 rfl
      · exact fun h => h.2 hmem
    unfold generate_benchmark_job
    rw [if_neg hal, if_neg hfl]
    cases loc
    · exact ⟨ci_job_header binfo m v ++
        List.intercalate (lit "\n") ((job_steps binfo m v g false).map Step.toCI), rfl,
        append_ne_nil_left (ci_job_header_ne_nil binfo m v) _⟩
    · obtain ⟨r, hr⟩ := render_job_steps_local_isSome binfo m v g
      refine ⟨local_job_header binfo m v ++ r, ?_,
        append_ne_nil_left (local_job_header_ne_nil binfo m v) _⟩
      rw [if_pos rfl, hr]
      rfl

theorem c7_comparative_opt_out_witness :
    generate_benchmark_job sampleOptOutBenchmark false sampleVariant false false [] = some [] ∧
    ∃ s, generate_benchmark_job sampleBenchmark false plainVariant false false [] = some s ∧
      s ≠ [] :=
  ⟨(c7_comparative_opt_out sampleOptOutBenchmark false sampleVariant false false []).1 rfl rfl,
   (c7_comparative_opt_out sampleBenchmark false plainVariant false false []).2 rfl (Or.inl rfl)⟩

/-- C8: in local mode, if the conversion-tool binary, the port_tools
directory, or the benchmark-archive directory does not exist, or the named
workflow configuration is unknown, the run terminates with an error and the
output script file is never created. -/
theorem c8_local_mode_fails_before_writing (abspath : Str → Str) (path_exists : Str → Bool)
    (script_dir : Str) (bs : List BenchmarkInfo) (a : LocalArgs)
    (h : path_exists (abspath a._3c_build_dir ++ lit "/bin/3c") = false ∨
         path_exists (abspath a._3c_source_dir ++
           lit "/clang/tools/3c/utils/port_tools") = false ∨
         path_exists a.checkedc_benchmarks_dir = false ∨
         workflow_file_configs.filter (fun c => decide (c.filename = a.workflow_config)) = []) :
    (∃ msg, run_local_mode abspath path_exists script_dir bs a = .error msg) ∧
    local_mode_written_files abspath path_exists script_dir bs a = [] := by
  have herr : ∃ msg, run_local_mode abspath path_exists script_dir bs a = .error msg := by
    unfold run_local_mode
    by_cases h1 : path_exists (abspath a._3c_build_dir ++ lit "/bin/3c") = false
    · rw [if_pos h1]; exact ⟨_, rfl⟩
    · rw [if_neg h1]
      by_cases h2 : path_exists (abspath a._3c_source_dir ++
          lit "/clang/tools/3c/utils/port_tools") = false
      · rw [if_pos h2]; exact ⟨_, rfl⟩
      · rw [if_neg h2]
        by_cases h3 : path_exists a.checkedc_benchmarks_dir = false
        · rw [if_pos h3]; exact ⟨_, rfl⟩
        · rw [if_neg h3]
          have h4 : workflow_file_configs.filter
              (fun c => decide (c.filename = a.workflow_config)) = [] := by
            rcases h with h | h | h | h
            · exact absurd h h1
            · exact absurd h h2
            · exact absurd h h3
            · exact h
          rw [h4]
          exact ⟨_, rfl⟩
  refine ⟨herr, ?_⟩
  obtain ⟨msg, hmsg⟩ := herr
  unfold local_mode_written_files
  rw [hmsg]

theorem c8_local_mode_fails_before_writing_witness :
    (∃ msg, run_local_mode id (fun _ => false) [] [] sampleLocalArgs = .error msg) ∧
    local_mode_written_files id (fun _ => false) [] [] sampleLocalArgs = [] :=
  c8_local_mode_fails_before_writing id (fun _ => false) [] [] sampleLocalArgs (Or.inl rfl)

/-- C9: rendering any action-typed step in the local-script form fails
(`format_local` is `none` for every name, action, and argument list), while
rendering the same step in the CI form succeeds (`format_body` is total and
produces non-empty text). -/
theorem c9_action_step_not_renderable_locally (n an : Str) (as : List (Str × Str)) :
    Step.format_local (.action n an as) = none ∧
    Step.format_body (.action n an as) ≠ [] := by
  refine ⟨rfl, ?_⟩
  intro h
  have h2 := congrArg List.length h
  rw [Step.format_body, List.length_append, List.length_append, List.length_append,
      List.length_nil] at h2
  have h6 : (lit "uses: ").length = 6 := rfl
  omega

/-- C10: in local mode the step builder produces only run steps — the stats
step is the zip run step rather than the CI copy-plus-upload pair — so
rendering a builder-produced local step sequence never reaches the
unsupported-action failure of `ActionStep.format_local`. -/
theorem c10_local_steps_never_hit_action_failure (binfo : BenchmarkInfo) (m : Bool)
    (v : Variant) (g : Bool) :
    (job_steps binfo m v g true).all Step.isRun = true ∧
    render_local_steps (job_steps binfo m v g true) ≠ none := by
  refine ⟨job_steps_local_all_run binfo m v g, ?_⟩
  obtain ⟨r, hr⟩ := render_job_steps_local_isSome binfo m v g
  rw [hr]
  exact Option.some_ne_none r
